import Mathlib

/-!
Shallow embedding of the pyrv RV32I instruction-set simulator
(`pyrv/helpers.py`, `pyrv/models.py`, `pyrv/instructions.py`, `pyrv/harts.py`).

Conventions of the embedding:
* Python arbitrary-precision non-negative integers are `Nat`; values that can
  be negative (sign-extended immediates, signed views of registers) are `Int`.
* Python's `x & 0xFFFFFFFF` on an arbitrary integer equals `x mod 2^32`
  (two's-complement low bits), embedded with `Int.emod`.
* Python code that can raise is embedded in `Except Err`; raising an
  exception before a mutation happens corresponds to returning `.error`
  without producing a successor state.
* numpy arrays are embedded as a size together with a contents function;
  out-of-range `.item`/indexing raises (`.indexError`), and storing a Python
  int that does not fit the array's dtype raises (`.overflow`).
-/

namespace Pyrv

/-- Exceptions raised by the embedded code, mirroring the exception classes of
`pyrv.helpers` / `pyrv.models` plus the built-in numpy/Python errors. -/
inductive Err where
  | misaligned          -- AddressMisalignedException
  | accessFault         -- AccessFaultException
  | invalidInstruction  -- InvalidInstructionError
  | unallocated         -- UnallocatedAddressException
  | indexError          -- numpy/tuple IndexError
  | keyError            -- dict KeyError (width2dtype)
  | overflow            -- OverflowError (int.to_bytes / numpy dtype store)
  | valueError          -- ValueError (numpy shape mismatch)
  deriving DecidableEq

instance exceptDecEq {ε α : Type} [DecidableEq ε] [DecidableEq α] :
    DecidableEq (Except ε α) := fun a b =>
  match a, b with
  | .error e1, .error e2 =>
    if h : e1 = e2 then isTrue (by rw [h])
    else isFalse (fun hh => h (Except.error.inj hh))
  | .ok a1, .ok a2 =>
    if h : a1 = a2 then isTrue (by rw [h])
    else isFalse (fun hh => h (Except.ok.inj hh))
  | .error _, .ok _ => isFalse (fun hh => Except.noConfusion hh)
  | .ok _, .error _ => isFalse (fun hh => Except.noConfusion hh)

/-- `Register.MASK = (1 << WIDTH) - 1` with `WIDTH = 32` (helpers.py). -/
def MASK : Nat := 4294967295

/-- `2^32`, the register modulus. -/
def UINT32 : Nat := 4294967296

/-- Python's `value & MASK` on a (possibly negative) int: the low 32 bits,
i.e. the value modulo `2^32` (`Register._masked` in helpers.py). -/
def mask32 (v : Int) : Nat := (v % (4294967296 : Int)).toNat

/-- `se(value, bits)` from helpers.py: sign extend a `bits`-wide binary
integer.  Python: `sign_bit = 1 << bits - 1; return (value ^ sign_bit) -
sign_bit` (note Python precedence: the shift is by `bits - 1`). -/
def se (value : Nat) (bits : Nat) : Int :=
  (Int.ofNat (value ^^^ 2 ^ (bits - 1))) - Int.ofNat (2 ^ (bits - 1))

/-- Python's `>>` on a possibly negative int: arithmetic shift, i.e. floor
division by `2^k`. -/
def pyShiftRight (v : Int) (k : Nat) : Int := Int.fdiv v (2 ^ k)

/-! ### Register file (models.RegisterFile over helpers.Register) -/

/-- The register file: cell values indexed by register number.  Cell 0 is the
immutable `Register` (its `write` is a no-op), cells 1..31 are
`MutableRegister`s.  Register indices produced by `decode_instr` are 5-bit
fields, so only cells 0..31 are ever touched. -/
def RegFile := Nat → Nat

/-- All cells start at 0 (`RegisterFile.__init__`). -/
def rfInit : RegFile := fun _ => 0

/-- `rf[i] = v` (`RegisterFile.__setitem__` → `Register.write`):
writing cell 0 is discarded; a `MutableRegister.write` masks to 32 bits. -/
def rfWrite (rf : RegFile) (i : Nat) (v : Int) : RegFile :=
  if i = 0 then rf else fun j => if j = i then mask32 v else rf j

/-- `Register.__add__`: `self.read() + self._int_or_reg(other)`, masked. -/
def regAdd (a : Nat) (b : Int) : Nat := mask32 ((a : Int) + (mask32 b : Int))

/-- `Register.__sub__`: `self.read() - self._int_or_reg(other)`, masked. -/
def regSub (a : Nat) (b : Int) : Nat := mask32 ((a : Int) - (mask32 b : Int))

/-- A sequence of register-file writes `(index, value)`, applied in order. -/
def applyWrites (rf : RegFile) (ws : List (Nat × Int)) : RegFile :=
  ws.foldl (fun rf p => rfWrite rf p.1 p.2) rf

/-! ### models.Memory (byte-wide backing array, as used by DataMemory) -/

/-- A `models.Memory` with `width = 1`: a numpy `uint8` array of `size`
cells. -/
structure PyMemory where
  size : Nat
  contents : Nat → Nat

/-- `Memory.__init__(size)` zero-fills `size` KiB of bytes. -/
def pyMemInit (sizeKiB : Nat) : PyMemory := ⟨sizeKiB * 1024, fun _ => 0⟩

/-- The numpy slice `contents[addr : addr + n]` (clipped at the array end,
as numpy slices are). -/
def memSlice (m : PyMemory) (addr n : Nat) : List Nat :=
  ((List.range n).filter (fun k => addr + k < m.size)).map
    (fun k => m.contents (addr + k))

/-- numpy `astype` to a dtype of `bits` bits: an elementwise cast, keeping
each element's value modulo `2^bits`.  (It does not reinterpret the
underlying bytes.) -/
def astype (bits : Nat) (xs : List Nat) : List Nat := xs.map (· % 2 ^ bits)

/-- numpy `.item(0)`: the first element; raises `IndexError` when empty. -/
def item0 (xs : List Nat) : Except Err Nat :=
  match xs with
  | [] => .error .indexError
  | x :: _ => .ok x

/-- `Memory.width2dtype[n]`: dtype width in bits; `KeyError` otherwise. -/
def width2bits (n : Nat) : Except Err Nat :=
  match n with
  | 1 => .ok 8
  | 2 => .ok 16
  | 4 => .ok 32
  | _ => .error .keyError

/-- `Memory.read(addr, n_bytes)`:
`self._read(addr, n_bytes).astype(self.width2dtype[n_bytes]).item(0)`. -/
def pyMemRead (m : PyMemory) (addr n : Nat) : Except Err Nat := do
  let bits ← width2bits n
  item0 (astype bits (memSlice m addr n))

/-- `data.to_bytes(n, byteorder="little")`: the `n` little-endian bytes;
Python raises `OverflowError` when `data` does not fit in `n` bytes. -/
def toBytesLE (data n : Nat) : Except Err (List Nat) :=
  if data < 2 ^ (8 * n) then
    .ok ((List.range n).map (fun i => data / 2 ^ (8 * i) % 256))
  else .error .overflow

/-- `Memory.write(addr, data, n_bytes)` → `_write_bytes`: store the `n`
little-endian bytes of `data` at `addr` (numpy raises on a shape mismatch
when the slice runs past the end of the array). -/
def pyMemWrite (m : PyMemory) (addr data n : Nat) : Except Err PyMemory := do
  let bs ← toBytesLE data n
  if addr + n ≤ m.size then
    .ok ⟨m.size, fun i =>
      if addr ≤ i ∧ i < addr + n then bs.getD (i - addr) 0 else m.contents i⟩
  else .error .valueError

/-! ### models.Memory with width = 4 (as used by InstructionMemory) -/

/-- A `models.Memory` with `width = 4`: a numpy `uint32` array of `size`
cells.  `InstructionMemory()` is `Memory(2 * 1024, 4)`. -/
structure PyWordMemory where
  size : Nat
  contents : Nat → Nat

/-- The numpy slice `contents[addr : addr + n]` of the word array. -/
def wmemSlice (m : PyWordMemory) (addr n : Nat) : List Nat :=
  ((List.range n).filter (fun k => addr + k < m.size)).map
    (fun k => m.contents (addr + k))

/-- `Memory.read(addr, n_bytes)` on a word-wide memory: slice the `uint32`
cells, cast each to the `n_bytes` dtype (truncating), take element 0. -/
def pyWordMemRead (m : PyWordMemory) (addr n : Nat) : Except Err Nat := do
  let bits ← width2bits n
  item0 (astype bits (wmemSlice m addr n))

/-- `Memory.write(addr, data, n_bytes)` on a word-wide memory: numpy assigns
each of the `n` little-endian bytes of `data` to one `uint32` cell. -/
def pyWordMemWrite (m : PyWordMemory) (addr data n : Nat) :
    Except Err PyWordMemory := do
  let bs ← toBytesLE data n
  if addr + n ≤ m.size then
    .ok ⟨m.size, fun i =>
      if addr ≤ i ∧ i < addr + n then bs.getD (i - addr) 0 else m.contents i⟩
  else .error .valueError

/-! ### models.MemoryMappedPeripheral -/

/-- `MemoryMappedPeripheral._word_size = 8`: both the value array and the
lookup array have 8 cells. -/
def WORD_SIZE : Nat := 8

/-- State of a `MemoryMappedPeripheral` (and of its subclass `SimControl`):
`values` is the `uint32` array `_register_values`, `lookup` the `uint8`
array `_register_lookup` (0 is the "unallocated" sentinel), and `triggers`
the `(addr, test_func)`-keyed trigger table in insertion order.  Callbacks
are not stored; `mmioWrite` instead reports which triggers fired and with
which arguments. -/
structure Mmio where
  values : Nat → Nat
  lookup : Nat → Nat
  triggers : List (Nat × (Nat → Nat → Bool))

/-- `self._register_lookup.max()`. -/
def lookupMax (m : Mmio) : Nat :=
  ((List.range WORD_SIZE).map m.lookup).foldr Nat.max 0

/-- `get_register(addr)`: `idx = self._register_lookup[addr >> 2]`, `None`
when the sentinel 0 is found; numpy raises `IndexError` when `addr >> 2`
is outside the lookup array. -/
def getRegister (m : Mmio) (addr : Nat) : Except Err (Option Nat) :=
  if addr >>> 2 < WORD_SIZE then
    let idx := m.lookup (addr >>> 2)
    .ok (if idx = 0 then none else some idx)
  else .error .indexError

/-- `alloc_register(addr)`: `next_idx = self._register_lookup.max() + 1;
self._register_lookup[addr >> 2] = next_idx` (a `uint8` store). -/
def allocRegister (m : Mmio) (addr : Nat) : Except Err (Mmio × Nat) :=
  let nextIdx := lookupMax m + 1
  if addr >>> 2 < WORD_SIZE then
    if nextIdx < 256 then
      .ok ({ m with lookup := fun i =>
               if i = addr >>> 2 then nextIdx else m.lookup i }, nextIdx)
    else .error .overflow
  else .error .indexError

/-- `set_register(addr, val)`: allocate if absent, then
`self._register_values[idx] = val` (note: index `idx`, not `idx - 1`). -/
def setRegister (m : Mmio) (addr val : Nat) : Except Err Mmio := do
  let idx? ← getRegister m addr
  let p ← match idx? with
    | none => allocRegister m addr
    | some idx => Except.ok (m, idx)
  if p.2 < WORD_SIZE then
    if val < UINT32 then
      .ok { p.1 with values := fun i => if i = p.2 then val else p.1.values i }
    else .error .overflow
  else .error .indexError

/-- `MemoryMappedPeripheral.__init__`: zeroed arrays, no triggers, then
`self.set_register(0x0, 0x0)` (which allocates index 1 for word address 0). -/
def mmioFresh : Except Err Mmio :=
  setRegister ⟨fun _ => 0, fun _ => 0, []⟩ 0 0

/-- `MemoryMappedPeripheral.read(addr, n_bytes)`: look the register up
(`UnallocatedAddress` when absent), fetch `self._register_values.item(key - 1)`,
then extract the byte lane `(addr & 3) << 3` for byte reads, the lane
`(addr & 2) << 2` for halfword reads, and the whole value otherwise. -/
def mmioRead (m : Mmio) (addr n : Nat) : Except Err Nat := do
  let key? ← getRegister m addr
  match key? with
  | none => .error .unallocated
  | some key => do
    let value ←
      if key - 1 < WORD_SIZE then Except.ok (m.values (key - 1))
      else Except.error Err.indexError
    match n with
    | 1 => .ok (value >>> ((addr &&& 3) <<< 3) &&& 0xFF)
    | 2 => .ok (value >>> ((addr &&& 2) <<< 2) &&& 0xFFFF)
    | _ => .ok value

/-- `add_trigger(addr, test_func, callback)`: append to the trigger table
(`self._triggers[TriggerKey(addr, test_func)] = callback`; dict order is
insertion order). -/
def addTrigger (m : Mmio) (addr : Nat) (testFunc : Nat → Nat → Bool) : Mmio :=
  { m with triggers := m.triggers ++ [(addr, testFunc)] }

/-- `MemoryMappedPeripheral.write(addr, data, n_bytes)`:

```
old_value = self._register_values.item(idx)
mask = 1 << (n_bytes * 8) - 1          # i.e. 2^(n*8 - 1), Python precedence
lane = addr & 0xFF
value = (data & mask) << lane
mask <<= addr & lane
self._register_values[idx] = old_value & ~mask | value
for (trigger_addr, test_func), callback in self._triggers.items():
    if trigger_addr == addr and test_func(value, old_value):
        callback(value, old_value)
```

`old & ~mask` on non-negative ints clears the mask bits, i.e.
`old - (old &&& mask)`.  The result returns the new peripheral state plus,
in table order, `(position, new_arg, old_arg)` for every trigger whose
callback was invoked, with the exact arguments the code passes. -/
def mmioWrite (m : Mmio) (addr data n : Nat) :
    Except Err (Mmio × List (Nat × Nat × Nat)) := do
  let idx? ← getRegister m addr
  match idx? with
  | none => .error .unallocated
  | some idx => do
    let oldValue ←
      if idx < WORD_SIZE then Except.ok (m.values idx)
      else Except.error Err.indexError
    let mask := 2 ^ (n * 8 - 1)
    let lane := addr &&& 0xFF
    let value := (data &&& mask) <<< lane
    let mask := mask <<< (addr &&& lane)
    let newStored := (oldValue - (oldValue &&& mask)) ||| value
    if newStored < UINT32 then
      let fired := (m.triggers.enum.filter
          (fun t => t.2.1 == addr && t.2.2 value oldValue)).map
          (fun t => (t.1, value, oldValue))
      .ok ({ m with values := fun i => if i = idx then newStored else m.values i },
           fired)
    else .error .overflow

/-! ### Instruction frames and the instruction type (instructions.py) -/

/-- `IType` frame: `rd`, `rs1`, `imm`. -/
structure IFr where
  rd : Nat
  rs1 : Nat
  imm : Int
  deriving DecidableEq

/-- `RType` frame: `rd`, `rs1`, `rs2`. -/
structure RFr where
  rd : Nat
  rs1 : Nat
  rs2 : Nat
  deriving DecidableEq

/-- `SType` frame: `rs1`, `rs2`, `imm`. -/
structure SFr where
  rs1 : Nat
  rs2 : Nat
  imm : Int
  deriving DecidableEq

/-- `BType` frame: `rs1`, `rs2`, `imm`. -/
structure BFr where
  rs1 : Nat
  rs2 : Nat
  imm : Int
  deriving DecidableEq

/-- `UType` frame: `rd`, `imm`. -/
structure UFr where
  rd : Nat
  imm : Int
  deriving DecidableEq

/-- `JType` frame: `rd`, `imm`. -/
structure JFr where
  rd : Nat
  imm : Int
  deriving DecidableEq

/-- The instruction classes of instructions.py as a tagged type. -/
inductive Instr where
  | jal (f : JFr)     -- JumpAndLink
  | jalr (f : IFr)    -- JumpAndLinkRegister
  | beq (f : BFr)     -- BranchEqual
  | bne (f : BFr)     -- BranchNotEqual
  | blt (f : BFr)     -- BranchOnLessThan
  | bltu (f : BFr)    -- BranchOnLessThanU
  | bge (f : BFr)     -- BranchOnGreaterThanEqual
  | bgeu (f : BFr)    -- BranchOnGreaterThanEqualU
  | lb (f : IFr)      -- LoadByte
  | lh (f : IFr)      -- LoadHalfword
  | lw (f : IFr)      -- LoadWord
  | lbu (f : IFr)     -- LoadByteU
  | lhu (f : IFr)     -- LoadHalfwordU
  | sb (f : SFr)      -- StoreByte
  | sh (f : SFr)      -- StoreHalfword
  | sw (f : SFr)      -- StoreWord
  | addi (f : IFr)    -- AddImmediate
  | slti (f : IFr)    -- SetOnLessThanImmediate
  | sltiu (f : IFr)   -- SetOnLessThanImmediateU
  | xori (f : IFr)    -- ExclusiveOrImmediate
  | ori (f : IFr)     -- OrImmediate
  | andi (f : IFr)    -- AndImmediate
  | slli (f : IFr)    -- ShiftLeftLogicalImmediate
  | srli (f : IFr)    -- ShiftRightLogicalImmediate
  | srai (f : IFr)    -- ShiftRightArithmeticImmediate
  | lui (f : UFr)     -- LoadUpperImmediate
  | auipc (f : UFr)   -- AddUpperImmediateToPc
  | add (f : RFr)     -- Add
  | sub (f : RFr)     -- Sub
  | sll (f : RFr)     -- ShiftLeftLogical
  | slt (f : RFr)     -- SetOnLessThan
  | sltu (f : RFr)    -- SetOnLessThanU
  | xor (f : RFr)     -- ExclusiveOr
  | srl (f : RFr)     -- ShiftRightLogical
  | sra (f : RFr)     -- ShiftRightArithmetic
  | or (f : RFr)      -- Or
  | and (f : RFr)     -- And
  deriving DecidableEq

/-- The decoder's fall-through result
`Add(RType(rd="x0", rs1="x0", rs2="x0"))`: the aliases resolve to index 0. -/
def nopInstr : Instr := .add ⟨0, 0, 0⟩

/-- `bselect(bits, msb, lsb, shift)`:
`(((1 << (msb - lsb + 1)) - 1) & (bits >> lsb)) << shift`. -/
def bselect (bits msb lsb shift : Nat) : Nat :=
  ((2 ^ (msb - lsb + 1) - 1) &&& (bits >>> lsb)) <<< shift

/-- `decode_instr(instr)` from instructions.py: match on the 7-bit opcode,
then on funct3 (and funct7 where applicable).  Fall-through inside a known
opcode group — including the FENCE and ECALL/EBREAK groups — reaches the
final `return Add(RType(rd="x0", rs1="x0", rs2="x0"))` nop; only an unknown
opcode raises `InvalidInstructionError`. -/
def decode_instr (instr : Nat) : Except Err Instr :=
  let op := bselect instr 6 0 0
  let funct3 := bselect instr 14 12 0
  let funct7 := bselect instr 31 25 0
  let rd := bselect instr 11 7 0
  let rs1 := bselect instr 19 15 0
  let rs2 := bselect instr 24 20 0
  match op with
  | 0b0000011 =>  -- loads
    let imm := bselect instr 31 20 0
    let fr : IFr := ⟨rd, rs1, se imm 12⟩
    match funct3 with
    | 0b000 => .ok (.lb fr)
    | 0b001 => .ok (.lh fr)
    | 0b010 => .ok (.lw fr)
    | 0b100 => .ok (.lbu fr)
    | 0b101 => .ok (.lhu fr)
    | _ => .ok nopInstr
  | 0b0100011 =>  -- stores
    let imm := bselect instr 31 25 5 ||| bselect instr 11 7 0
    let fr : SFr := ⟨rs1, rs2, se imm 12⟩
    match funct3 with
    | 0b000 => .ok (.sb fr)
    | 0b001 => .ok (.sh fr)
    | 0b010 => .ok (.sw fr)
    | _ => .ok nopInstr
  | 0b0010011 =>  -- immediate arithmetic
    let imm := bselect instr 31 20 0
    let fr : IFr := ⟨rd, rs1, se imm 12⟩
    match funct3, funct7 with
    | 0b000, _ => .ok (.addi fr)
    | 0b010, _ => .ok (.slti fr)
    | 0b011, _ => .ok (.sltiu fr)
    | 0b100, _ => .ok (.xori fr)
    | 0b110, _ => .ok (.ori fr)
    | 0b111, _ => .ok (.andi fr)
    | 0b001, _ => .ok (.slli fr)
    | 0b101, 0b0000000 => .ok (.srli ⟨rd, rs1, Int.ofNat (bselect instr 24 20 0)⟩)
    | 0b101, 0b0100000 => .ok (.srai ⟨rd, rs1, Int.ofNat (bselect instr 24 20 0)⟩)
    | _, _ => .ok nopInstr
  | 0b0110011 =>  -- register arithmetic
    let fr : RFr := ⟨rd, rs1, rs2⟩
    match funct3, funct7 with
    | 0b000, 0b0000000 => .ok (.add fr)
    | 0b000, 0b0100000 => .ok (.sub fr)
    | 0b001, _ => .ok (.sll fr)
    | 0b010, _ => .ok (.slt fr)
    | 0b011, _ => .ok (.sltu fr)
    | 0b100, _ => .ok (.xor fr)
    | 0b101, 0b0000000 => .ok (.srl fr)
    | 0b101, 0b0100000 => .ok (.sra fr)
    | 0b110, _ => .ok (.or fr)
    | 0b111, _ => .ok (.and fr)
    | _, _ => .ok nopInstr
  | 0b1100011 =>  -- branches
    let imm := bselect instr 31 31 12 ||| bselect instr 7 7 11 |||
               bselect instr 30 25 5 ||| bselect instr 11 8 1
    let fr : BFr := ⟨rs1, rs2, se imm (12 + 1)⟩
    match funct3 with
    | 0b000 => .ok (.beq fr)
    | 0b001 => .ok (.bne fr)
    | 0b100 => .ok (.blt fr)
    | 0b101 => .ok (.bge fr)
    | 0b110 => .ok (.bltu fr)
    | 0b111 => .ok (.bgeu fr)
    | _ => .ok nopInstr
  | 0b1100111 =>  -- jalr
    .ok (.jalr ⟨rd, rs1, se (bselect instr 31 20 0) 12⟩)
  | 0b1101111 =>  -- jal
    let imm := bselect instr 31 31 20 ||| bselect instr 19 12 12 |||
               bselect instr 20 20 11 ||| bselect instr 30 21 1
    .ok (.jal ⟨rd, se imm (20 + 1)⟩)
  | 0b0110111 =>  -- lui
    .ok (.lui ⟨rd, Int.ofNat (bselect instr 31 12 12)⟩)
  | 0b0010111 =>  -- auipc
    .ok (.auipc ⟨rd, Int.ofNat (bselect instr 31 12 12)⟩)
  | 0b0001111 =>  -- fence: pass, falls to the nop return
    .ok nopInstr
  | 0b1110011 =>  -- env: pass, falls to the nop return
    .ok nopInstr
  | _ => .error .invalidInstruction

/-! ### Hart and system bus (harts.py, models.SystemBus) -/

/-- `Hart.INSTRUCTION_MEMORY_SIZE = 2 * 1024 * 1024` (bytes; the
`InstructionMemory` array has the same number of `uint32` cells). -/
def IMEM_SIZE : Nat := 2097152

/-- `Hart.DATA_MEMORY_SIZE = 6 * 1024 * 1024` bytes. -/
def DMEM_SIZE : Nat := 6291456

/-- A `harts.Hart`: PC, register file, instruction memory (`uint32` cells)
and data memory (`uint8` cells).  The system bus maps
`[0, IMEM_SIZE)` to the instruction memory and
`[IMEM_SIZE, IMEM_SIZE + DMEM_SIZE)` to the data memory, in that insertion
order (`Hart.__init__`). -/
structure Hart where
  pc : Nat
  rf : RegFile
  imem : Nat → Nat
  dmem : Nat → Nat

/-- A hart as freshly constructed: PC 0, all registers 0, zeroed memories. -/
def hartInit : Hart := ⟨0, rfInit, fun _ => 0, fun _ => 0⟩

/-- `SystemBus.read(addr, n_bytes)` for the hart's address map:
`check_access` raises `AddressMisaligned` when `n` is zero or not a power
of two, when `n > 4`, or when `addr % n ≠ 0`; then the slave ports are
scanned (`AddressRange.contains`: `start ≤ addr ∧ addr + n - 1 ≤ end`) and
the matching peripheral is read at offset `addr - start`; with no match,
`get_access` raises `AccessFault`.  The address is an `Int` because the
load/store effective address can be negative. -/
def busRead (h : Hart) (addr : Int) (n : Nat) : Except Err Nat :=
  if (n &&& (n - 1)) ≠ 0 ∨ n = 0 then .error .misaligned
  else if 4 < n then .error .misaligned
  else if addr % (n : Int) ≠ 0 then .error .misaligned
  else if 0 ≤ addr ∧ addr + n - 1 ≤ (IMEM_SIZE : Int) - 1 then
    pyWordMemRead ⟨IMEM_SIZE, h.imem⟩ addr.toNat n
  else if (IMEM_SIZE : Int) ≤ addr ∧ addr + n - 1 ≤ (IMEM_SIZE : Int) + (DMEM_SIZE : Int) - 1 then
    pyMemRead ⟨DMEM_SIZE, h.dmem⟩ (addr - (IMEM_SIZE : Int)).toNat n
  else .error .accessFault

/-- `SystemBus.write(addr, data, n_bytes)`, same validation and dispatch as
`busRead`. -/
def busWrite (h : Hart) (addr : Int) (data : Nat) (n : Nat) : Except Err Hart :=
  if (n &&& (n - 1)) ≠ 0 ∨ n = 0 then .error .misaligned
  else if 4 < n then .error .misaligned
  else if addr % (n : Int) ≠ 0 then .error .misaligned
  else if 0 ≤ addr ∧ addr + n - 1 ≤ (IMEM_SIZE : Int) - 1 then
    (pyWordMemWrite ⟨IMEM_SIZE, h.imem⟩ addr.toNat data n).map
      (fun m => { h with imem := m.contents })
  else if (IMEM_SIZE : Int) ≤ addr ∧ addr + n - 1 ≤ (IMEM_SIZE : Int) + (DMEM_SIZE : Int) - 1 then
    (pyMemWrite ⟨DMEM_SIZE, h.dmem⟩ (addr - (IMEM_SIZE : Int)).toNat data n).map
      (fun m => { h with dmem := m.contents })
  else .error .accessFault

/-! ### Execution semantics (`exec` methods of instructions.py)

Notes on fidelity:
* `hart.rf[rd] = X` is `rfWrite` — the write to cell 0 is discarded and
  other writes are masked to 32 bits.
* Register operators mask their right operand (`_int_or_reg`) and, for
  arithmetic/shift, the result (`_masked`); comparisons compare the raw
  left value with the masked right value.
* `hart.pc += imm` is `write(masked(pc + masked(imm)))`, i.e.
  `(pc + imm) mod 2^32`.
* The load/store `exec` bodies use `self.rs1`/`self.rs2` — the *register
  indices from the frame* — as the address base and the store data
  (`hart.rf[...]` is not consulted).
-/

/-- `instr.exec(hart)`, dispatching on the instruction class. -/
def exec (i : Instr) (h : Hart) : Except Err Hart :=
  match i with
  | .jal f =>
    -- hart.rf[rd] = hart.pc + 4; hart.pc += imm
    let rf2 := rfWrite h.rf f.rd (regAdd h.pc 4 : Nat)
    .ok { h with rf := rf2, pc := regAdd h.pc f.imm }
  | .jalr f =>
    -- hart.rf[rd] = hart.pc + 4; val = hart.rf[rs1] + imm (reads the rf
    -- *after* the rd write); hart.pc.write(val & 0xFFFF_FFFE)
    let rf2 := rfWrite h.rf f.rd (regAdd h.pc 4 : Nat)
    let val := regAdd (rf2 f.rs1) f.imm
    .ok { h with rf := rf2, pc := val &&& 0xFFFFFFFE }
  | .beq f =>
    if h.rf f.rs1 = h.rf f.rs2 % UINT32 then
      .ok { h with pc := regAdd h.pc f.imm }
    else .ok h
  | .bne f =>
    if h.rf f.rs1 ≠ h.rf f.rs2 % UINT32 then
      .ok { h with pc := regAdd h.pc f.imm }
    else .ok h
  | .blt f =>
    if se (h.rf f.rs1) 32 < se (h.rf f.rs2) 32 then
      .ok { h with pc := regAdd h.pc f.imm }
    else .ok h
  | .bltu f =>
    -- hart.pc += self.imm & 0xFFFF_FFFF
    if h.rf f.rs1 < h.rf f.rs2 % UINT32 then
      .ok { h with pc := regAdd h.pc (mask32 f.imm : Nat) }
    else .ok h
  | .bge f =>
    if se (h.rf f.rs1) 32 ≥ se (h.rf f.rs2) 32 then
      .ok { h with pc := regAdd h.pc f.imm }
    else .ok h
  | .bgeu f =>
    if h.rf f.rs1 ≥ h.rf f.rs2 % UINT32 then
      .ok { h with pc := regAdd h.pc (mask32 f.imm : Nat) }
    else .ok h
  | .lb f => do
    let v ← busRead h ((f.rs1 : Int) + f.imm) 1
    .ok { h with rf := rfWrite h.rf f.rd (se v 8) }
  | .lh f => do
    let v ← busRead h ((f.rs1 : Int) + f.imm) 2
    .ok { h with rf := rfWrite h.rf f.rd (se v 16) }
  | .lw f => do
    let v ← busRead h ((f.rs1 : Int) + f.imm) 4
    .ok { h with rf := rfWrite h.rf f.rd (v : Int) }
  | .lbu f => do
    let v ← busRead h ((f.rs1 : Int) + f.imm) 1
    .ok { h with rf := rfWrite h.rf f.rd (v : Int) }
  | .lhu f => do
    let v ← busRead h ((f.rs1 : Int) + f.imm) 2
    .ok { h with rf := rfWrite h.rf f.rd (v : Int) }
  | .sb f => busWrite h ((f.rs1 : Int) + f.imm) f.rs2 1
  | .sh f => busWrite h ((f.rs1 : Int) + f.imm) f.rs2 2
  | .sw f => busWrite h ((f.rs1 : Int) + f.imm) f.rs2 4
  | .addi f => .ok { h with rf := rfWrite h.rf f.rd (regAdd (h.rf f.rs1) f.imm : Nat) }
  | .slti f =>
    .ok { h with rf := rfWrite h.rf f.rd (if se (h.rf f.rs1) 32 < f.imm then 1 else 0) }
  | .sltiu f =>
    .ok { h with rf := rfWrite h.rf f.rd (if h.rf f.rs1 < mask32 f.imm then 1 else 0) }
  | .xori f =>
    .ok { h with rf := rfWrite h.rf f.rd ((h.rf f.rs1 ^^^ mask32 f.imm : Nat) : Int) }
  | .ori f =>
    .ok { h with rf := rfWrite h.rf f.rd ((h.rf f.rs1 ||| mask32 f.imm : Nat) : Int) }
  | .andi f =>
    .ok { h with rf := rfWrite h.rf f.rd ((h.rf f.rs1 &&& mask32 f.imm : Nat) : Int) }
  | .slli f =>
    -- hart.rf[rd] = hart.rf[rs1] << imm: shift by the *full* masked
    -- immediate (no 5-bit restriction), result masked to 32 bits
    .ok { h with rf := rfWrite h.rf f.rd ((h.rf f.rs1 <<< mask32 f.imm) % UINT32 : Nat) }
  | .srli f =>
    .ok { h with rf := rfWrite h.rf f.rd ((h.rf f.rs1 >>> mask32 f.imm : Nat) : Int) }
  | .srai f =>
    -- se(rf[rs1].read()) >> imm: Python arithmetic shift of a plain int
    .ok { h with rf := rfWrite h.rf f.rd (pyShiftRight (se (h.rf f.rs1) 32) f.imm.toNat) }
  | .lui f => .ok { h with rf := rfWrite h.rf f.rd f.imm }
  | .auipc f => .ok { h with rf := rfWrite h.rf f.rd (regAdd h.pc f.imm : Nat) }
  | .add f =>
    .ok { h with rf := rfWrite h.rf f.rd (regAdd (h.rf f.rs1) (h.rf f.rs2) : Nat) }
  | .sub f =>
    .ok { h with rf := rfWrite h.rf f.rd (regSub (h.rf f.rs1) (h.rf f.rs2) : Nat) }
  | .sll f =>
    -- hart.rf[rd] = hart.rf[rs1] << hart.rf[rs2]: full shift amount
    .ok { h with rf := rfWrite h.rf f.rd ((h.rf f.rs1 <<< (h.rf f.rs2 % UINT32)) % UINT32 : Nat) }
  | .slt f =>
    .ok { h with rf := rfWrite h.rf f.rd (if se (h.rf f.rs1) 32 < se (h.rf f.rs2) 32 then 1 else 0) }
  | .sltu f =>
    .ok { h with rf := rfWrite h.rf f.rd (if h.rf f.rs1 < h.rf f.rs2 % UINT32 then 1 else 0) }
  | .xor f =>
    .ok { h with rf := rfWrite h.rf f.rd ((h.rf f.rs1 ^^^ h.rf f.rs2 % UINT32 : Nat) : Int) }
  | .srl f =>
    .ok { h with rf := rfWrite h.rf f.rd ((h.rf f.rs1 >>> (h.rf f.rs2 % UINT32) : Nat) : Int) }
  | .sra f =>
    -- se(rf[rs1].read()) >> rf[rs2].read(): Python arithmetic shift
    .ok { h with rf := rfWrite h.rf f.rd (pyShiftRight (se (h.rf f.rs1) 32) (h.rf f.rs2)) }
  | .or f =>
    .ok { h with rf := rfWrite h.rf f.rd ((h.rf f.rs1 ||| h.rf f.rs2 % UINT32 : Nat) : Int) }
  | .and f =>
    .ok { h with rf := rfWrite h.rf f.rd ((h.rf f.rs1 &&& h.rf f.rs2 % UINT32 : Nat) : Int) }

/-- `Hart.step()`: fetch the word at PC over the bus, decode it, execute it.
(There is no PC update in the loop itself.) -/
def step (h : Hart) : Except Err Hart := do
  let instrWord ← busRead h (h.pc : Int) 4
  let instr ← decode_instr instrWord
  exec instr h

/-- Run an instruction on a hart as the Python driver observes it: on an
exception the hart object keeps the state it had (no `exec` body mutates
state before its bus call can raise). -/
def execOrKeep (i : Instr) (h : Hart) : Hart :=
  match exec i h with
  | .ok h2 => h2
  | .error _ => h

/-- A masked write always lands in `[0, 2^32)`. -/
theorem mask32_lt (v : Int) : mask32 v < UINT32 := by
  unfold mask32 UINT32
  omega

/-! ## Concrete fixtures used by the claim theorems -/

/-- A hart whose instruction memory holds `ADDI x1, x0, 5` (0x00500093) at
address 0 and whose PC is 0. -/
def hartAddi : Hart :=
  { hartInit with imem := fun a => if a = 0 then 0x00500093 else 0 }

/-- A hart with `x4 = 0x200000` (the data-memory base address) and
`x6 = 0x42`. -/
def hartStore : Hart :=
  { hartInit with
    rf := fun i => if i = 4 then 0x200000 else if i = 6 then 0x42 else 0 }

/-- A hart with `x4 = 0x200004`, instruction-memory cell 4 holding 99 and
data-memory byte 4 (bus address 0x200004) holding 0x55. -/
def hartLoad : Hart :=
  { hartInit with
    rf := fun i => if i = 4 then 0x200004 else 0,
    imem := fun a => if a = 4 then 99 else 0,
    dmem := fun a => if a = 4 then 0x55 else 0 }

/-- A hart with `x2 = 1` and `x3 = 32`. -/
def hartShift : Hart :=
  { hartInit with rf := fun i => if i = 2 then 1 else if i = 3 then 32 else 0 }

/-- The trigger predicate `lambda new, old: new == 1`. -/
def trigNewIsOne : Nat → Nat → Bool := fun new _ => new == 1

/-- The trigger predicate `lambda new, old: new == 0xAABB` used by the
repository's own `test_triggers`. -/
def trigNewIsAABB : Nat → Nat → Bool := fun new _ => new == 0xAABB

/-! ## Claim theorems -/

/-- Claim C1 (code bug): the claim says every load/store presents
`value(rs1) + imm` to the bus and every store writes the value held in
`rs2`.  The `exec` bodies instead use the frame's register *indices*:
on `hartStore` (where `x4 = 0x200000`, `x6 = 0x42`) the store
`SW rs2=6, 0(rs1=4)` writes data 6 to bus address 4 — instruction-memory
cell 4 becomes 6 and the data-memory byte at the claimed target address
0x200000 stays 0 — and on `hartLoad` (where `x4 = 0x200004`) the load
`LW x3, 0(x4)` reads bus address 4 (instruction memory, value 99) although
a read at the claimed address 0x200004 would return the data-memory byte
0x55. -/
theorem c1_loads_stores_use_register_indices :
    hartStore.rf 4 = 0x200000 ∧ hartStore.rf 6 = 0x42 ∧
    (exec (.sw ⟨4, 6, 0⟩) hartStore).map (fun h => (h.imem 4, h.dmem 0)) =
      .ok (6, 0) ∧
    hartLoad.rf 4 = 0x200004 ∧
    (exec (.lw ⟨3, 4, 0⟩) hartLoad).map (fun h => h.rf 3) = .ok 99 ∧
    busRead hartLoad 0x200004 4 = .ok 0x55 := by
  refine ⟨rfl, rfl, by decide, rfl, by decide, by decide⟩

/-- Claim C2 counterexample: the word 0x00003003 has the load opcode
0b0000011 with the unlisted funct3 = 0b011, yet `decode_instr` does not
raise `InvalidInstruction` — it returns the fall-through nop
`Add x0, x0, x0`. -/
theorem c2_decode_unknown_funct3_no_error :
    decode_instr 0x00003003 ≠ .error .invalidInstruction ∧
    decode_instr 0x00003003 = .ok nopInstr := by decide

/-- Every `bselect` field is bounded by its mask. -/
theorem bselect_le (w msb lsb : Nat) :
    bselect w msb lsb 0 ≤ 2 ^ (msb - lsb + 1) - 1 := by
  unfold bselect
  rw [Nat.shiftLeft_zero]
  exact Nat.and_le_left

/-- Claim C2 as amended: only an unrecognized 7-bit opcode raises
`InvalidInstruction`; a word whose opcode matches a known group but whose
funct3/funct7 combination is not one of the listed encodings decodes to the
canonical nop `Add x0, x0, x0` instead.  Covered exhaustively: the load
group with funct3 ∉ {000,001,010,100,101} (funct3 is a 3-bit field, so this
is funct3 ∈ {011,110,111}); the store group with funct3 ∉ {000,001,010};
the immediate-arithmetic group with funct3 = 101 and funct7 ∉ {0,32} (all
other funct3 values match a wildcard row); the register-arithmetic group
with funct3 ∈ {000,101} and funct7 ∉ {0,32} (all other funct3 values match
a wildcard row); the branch group with funct3 ∈ {010,011}; every word of
the FENCE and ECALL/EBREAK groups (decoded as nops by design); and every
word whose 7-bit opcode is none of the eleven known opcodes, which raises
`InvalidInstruction`. -/
theorem c2_decode_unknown_subencodings_nop :
    (∀ w, bselect w 6 0 0 = 0b0000011 → bselect w 14 12 0 ≠ 0b000 →
      bselect w 14 12 0 ≠ 0b001 → bselect w 14 12 0 ≠ 0b010 →
      bselect w 14 12 0 ≠ 0b100 → bselect w 14 12 0 ≠ 0b101 →
      decode_instr w = .ok nopInstr) ∧
    (∀ w, bselect w 6 0 0 = 0b0100011 → bselect w 14 12 0 ≠ 0b000 →
      bselect w 14 12 0 ≠ 0b001 → bselect w 14 12 0 ≠ 0b010 →
      decode_instr w = .ok nopInstr) ∧
    (∀ w, bselect w 6 0 0 = 0b0010011 → bselect w 14 12 0 = 0b101 →
      bselect w 31 25 0 ≠ 0b0000000 → bselect w 31 25 0 ≠ 0b0100000 →
      decode_instr w = .ok nopInstr) ∧
    (∀ w, bselect w 6 0 0 = 0b0110011 →
      (bselect w 14 12 0 = 0b000 ∨ bselect w 14 12 0 = 0b101) →
      bselect w 31 25 0 ≠ 0b0000000 → bselect w 31 25 0 ≠ 0b0100000 →
      decode_instr w = .ok nopInstr) ∧
    (∀ w, bselect w 6 0 0 = 0b1100011 → bselect w 14 12 0 ≠ 0b000 →
      bselect w 14 12 0 ≠ 0b001 → bselect w 14 12 0 ≠ 0b100 →
      bselect w 14 12 0 ≠ 0b101 → bselect w 14 12 0 ≠ 0b110 →
      bselect w 14 12 0 ≠ 0b111 →
      decode_instr w = .ok nopInstr) ∧
    (∀ w, bselect w 6 0 0 = 0b0001111 ∨ bselect w 6 0 0 = 0b1110011 →
      decode_instr w = .ok nopInstr) ∧
    (∀ w, bselect w 6 0 0 ≠ 0b0000011 → bselect w 6 0 0 ≠ 0b0100011 →
      bselect w 6 0 0 ≠ 0b0010011 → bselect w 6 0 0 ≠ 0b0110011 →
      bselect w 6 0 0 ≠ 0b1100011 → bselect w 6 0 0 ≠ 0b1100111 →
      bselect w 6 0 0 ≠ 0b1101111 → bselect w 6 0 0 ≠ 0b0110111 →
      bselect w 6 0 0 ≠ 0b0010111 → bselect w 6 0 0 ≠ 0b0001111 →
      bselect w 6 0 0 ≠ 0b1110011 →
      decode_instr w = .error .invalidInstruction) := by
  refine ⟨fun w h1 hn0 hn1 hn2 hn4 hn5 => ?_, fun w h1 hn0 hn1 hn2 => ?_,
    fun w h1 h2 hn0 hn32 => ?_, fun w h1 h2 hn0 hn32 => ?_,
    fun w h1 hn0 hn1 hn4 hn5 hn6 hn7 => ?_, fun w h1 => ?_,
    fun w k1 k2 k3 k4 k5 k6 k7 k8 k9 k10 k11 => ?_⟩
  · have h8 : bselect w 14 12 0 ≤ 7 := bselect_le w 14 12
    have hd : bselect w 14 12 0 = 3 ∨ bselect w 14 12 0 = 6 ∨
        bselect w 14 12 0 = 7 := by omega
    rcases hd with h2 | h2 | h2 <;> (unfold decode_instr; rw [h1, h2])
  · have h8 : bselect w 14 12 0 ≤ 7 := bselect_le w 14 12
    have hd : bselect w 14 12 0 = 3 ∨ bselect w 14 12 0 = 4 ∨
        bselect w 14 12 0 = 5 ∨ bselect w 14 12 0 = 6 ∨
        bselect w 14 12 0 = 7 := by omega
    rcases hd with h2 | h2 | h2 | h2 | h2 <;> (unfold decode_instr; rw [h1, h2])
  · unfold decode_instr
    rw [h1, h2]
    dsimp only
    split <;> first | rfl | (exfalso; omega)
  · rcases h2 with h2 | h2 <;>
      (unfold decode_instr; rw [h1, h2]; dsimp only;
       split <;> first | rfl | (exfalso; omega))
  · have h8 : bselect w 14 12 0 ≤ 7 := bselect_le w 14 12
    have hd : bselect w 14 12 0 = 2 ∨ bselect w 14 12 0 = 3 := by omega
    rcases hd with h2 | h2 <;> (unfold decode_instr; rw [h1, h2])
  · rcases h1 with h1 | h1 <;> (unfold decode_instr; rw [h1])
  · have hb : bselect w 6 0 0 ≤ 127 := bselect_le w 6 0
    revert hb k1 k2 k3 k4 k5 k6 k7 k8 k9 k10 k11
    unfold decode_instr
    generalize bselect w 6 0 0 = op
    intro hb k1 k2 k3 k4 k5 k6 k7 k8 k9 k10 k11
    interval_cases op <;> first | rfl | (exfalso; omega)

/-- Witness for `c2_decode_unknown_subencodings_nop` at the concrete words
0x00003003 (load opcode, funct3 = 011), 0xFE000033 (register-arithmetic
opcode, funct3 = 000, funct7 = 1111111) and 0x0000005B (unknown opcode
1011011). -/
theorem c2_decode_unknown_subencodings_nop_witness :
    decode_instr 0x00003003 = .ok nopInstr ∧
    decode_instr 0xFE000033 = .ok nopInstr ∧
    decode_instr 0x0000005B = .error .invalidInstruction :=
  ⟨c2_decode_unknown_subencodings_nop.1 0x00003003 (by decide) (by decide)
    (by decide) (by decide) (by decide) (by decide),
   c2_decode_unknown_subencodings_nop.2.2.2.1 0xFE000033 (by decide)
    (Or.inl (by decide)) (by decide) (by decide),
   c2_decode_unknown_subencodings_nop.2.2.2.2.2.2 0x0000005B (by decide)
    (by decide) (by decide) (by decide) (by decide) (by decide) (by decide)
    (by decide) (by decide) (by decide) (by decide)⟩

/-- Claim C3 (code bug): the claim says `step()` leaves PC at old PC + 4
after a non-branching, non-jumping instruction.  On `hartAddi` (PC 0, the
word at address 0 decoding to the non-branching `ADDI x1, x0, 5`) one
`step()` executes the instruction (`x1` becomes 5) but leaves PC at 0, not
4: the fetch-decode-execute loop contains no post-execute increment. -/
theorem c3_step_leaves_pc_unchanged :
    decode_instr 0x00500093 = .ok (.addi ⟨1, 0, 5⟩) ∧
    hartAddi.pc = 0 ∧
    (step hartAddi).map (fun h => (h.pc, h.rf 1)) = .ok (0, 5) := by
  refine ⟨by decide, rfl, by decide⟩

/-- Claim C4 (code bug): the claim says `write(a, v, n); read(a, n)` returns
`v & ((1 << (n*8)) - 1)`.  On a fresh `Memory(16)`, writing 0x0100 with
n = 2 at address 8 and reading back yields 0 (not 0x0100), and writing
0x11223344 with n = 4 yields 0x44: `Memory.read`'s
`astype(...).item(0)` converts the bytes elementwise and takes the first,
so a read returns the single byte at `addr` instead of the little-endian
interpretation of the `n` bytes. -/
theorem c4_memory_read_not_little_endian :
    ((pyMemWrite (pyMemInit 16) 8 0x0100 2).bind (fun m => pyMemRead m 8 2)) =
      .ok 0 ∧
    0x0100 &&& 0xFFFF = 0x0100 ∧
    ((pyMemWrite (pyMemInit 16) 8 0x11223344 4).bind (fun m => pyMemRead m 8 4)) =
      .ok 0x44 := by decide

/-- Claim C5 (code bug): the claim says that after `write(a, v, 4)` each
byte read at `a + k` returns `(v >> (k*8)) & 0xFF`.  On a fresh peripheral
(whose word at address 0 is allocated at index 1), `write(0, 0xAABBCCDD, 4)`
computes the mask as `1 << (n*8) - 1 = 2^31` (operator precedence), so the
value cell keeps only bit 31 (it becomes 0x80000000, not 0xAABBCCDD), and
every subsequent byte read returns 0 — `read` fetches
`_register_values.item(key - 1)` while `write` stored at `item(idx)` — where
the claim expects 0xDD/0xCC/0xBB/0xAA. -/
theorem c5_mmio_write_byte_lanes_lost :
    (do
      let m ← mmioFresh
      let p ← mmioWrite m 0 0xAABBCCDD 4
      let b0 ← mmioRead p.1 0 1
      let b1 ← mmioRead p.1 1 1
      let b2 ← mmioRead p.1 2 1
      let b3 ← mmioRead p.1 3 1
      Except.ok (b0, b1, b2, b3, p.1.values 1)) =
      .ok (0, 0, 0, 0, 0x80000000) ∧
    0xAABBCCDD >>> 8 &&& 0xFF = 0xCC := by decide

/-- Claim C6 (code bug): the claim says the shift instructions use only the
low 5 bits of the shift amount.  On `hartShift` (`x2 = 1`, `x3 = 32`),
`SLL x1, x2, x3`, `SLLI x1, x2, 32` and `SRL x1, x2, x3` all yield 0,
whereas shifting by the 5-bit-masked amount (32 & 0x1F = 0) would yield 1:
the `exec` bodies shift by the full operand, and the decoder does not
restrict the SLLI immediate to `word[24:20]`. -/
theorem c6_shifts_not_masked_to_5_bits :
    (exec (.sll ⟨1, 2, 3⟩) hartShift).map (fun h => h.rf 1) = .ok 0 ∧
    (hartShift.rf 2 <<< (hartShift.rf 3 &&& 0x1F)) % UINT32 = 1 ∧
    (exec (.slli ⟨1, 2, 32⟩) hartShift).map (fun h => h.rf 1) = .ok 0 ∧
    (hartShift.rf 2 <<< (32 &&& 0x1F)) % UINT32 = 1 ∧
    (exec (.srl ⟨1, 2, 3⟩) hartShift).map (fun h => h.rf 1) = .ok 0 ∧
    hartShift.rf 2 >>> (hartShift.rf 3 &&& 0x1F) = 1 := by decide

/-- Claim C7 (code bug): the claim says a fired callback receives the full
32-bit value now stored in the register.  With the register at address 0
holding 1 and a trigger `new == 1` attached, `write(0, 0, 4)` leaves the
stored value at 1 (the mis-parenthesized mask clears only bit 31), so by
the claim the trigger must fire with `(1, 1)` — but the code passes the
lane-shifted write data `value = 0` to the predicate, so no trigger fires.
Likewise in the repository's own `test_triggers` scenario (allocate address
0, trigger `new == 0xAABB`, `write(0, 0xAABB, 4)`) the predicate sees
`0xAABB & 0x80000000 = 0` and the expected callback never fires. -/
theorem c7_triggers_see_lane_value_not_stored :
    (do
      let m ← mmioFresh
      let m1 ← setRegister m 0 1
      let m2 := addTrigger m1 0 trigNewIsOne
      let p ← mmioWrite m2 0 0 4
      Except.ok (p.2, p.1.values 1)) = .ok ([], 1) ∧
    trigNewIsOne 1 1 = true ∧
    (do
      let m ← mmioFresh
      let q ← allocRegister m 0
      let m2 := addTrigger q.1 0 trigNewIsAABB
      let p ← mmioWrite m2 0 0xAABB 4
      Except.ok p.2) = .ok [] := by decide

/-- Claim C8 (confirmed): executing an `LW` whose effective address
(`rs1 + imm` as the `exec` body computes it) is congruent to 2 modulo 4
raises `AddressMisaligned` — the bus `check_access` alignment test fires
before any peripheral dispatch — and leaves the hart, in particular every
register including `rd`, unchanged. -/
theorem c8_lw_misaligned_raises (h : Hart) (f : IFr)
    (hm : ((f.rs1 : Int) + f.imm) % 4 = 2) :
    exec (.lw f) h = .error .misaligned ∧ execOrKeep (.lw f) h = h := by
  have hbr : busRead h ((f.rs1 : Int) + f.imm) 4 = .error .misaligned := by
    unfold busRead
    rw [if_neg (by decide), if_neg (by decide), if_pos (by omega)]
  have hex : exec (.lw f) h = .error .misaligned := by
    simp only [exec, hbr]
    rfl
  exact ⟨hex, by unfold execOrKeep; rw [hex]⟩

/-- Witness for `c8_lw_misaligned_raises`: `LW x0, 2(x0)` on the fresh hart
(effective address 0 + 2 ≡ 2 (mod 4)). -/
theorem c8_lw_misaligned_raises_witness :
    exec (.lw ⟨0, 0, 2⟩) hartInit = .error .misaligned ∧
      execOrKeep (.lw ⟨0, 0, 2⟩) hartInit = hartInit :=
  c8_lw_misaligned_raises hartInit ⟨0, 0, 2⟩ (by decide)

/-- Claim C9 (confirmed): starting from the freshly constructed register
file and applying any sequence of register writes (every instruction's
register update goes through `RegisterFile.__setitem__` → `Register.write`,
i.e. `rfWrite`), register 0 still reads 0 — writes to index 0 are
discarded — and every cell's readable value stays in `[0, 2^32)`. -/
theorem c9_x0_wired_zero (ws : List (Nat × Int)) :
    applyWrites rfInit ws 0 = 0 ∧ ∀ j, applyWrites rfInit ws j < UINT32 := by
  suffices h : ∀ rf : RegFile, rf 0 = 0 → (∀ j, rf j < UINT32) →
      applyWrites rf ws 0 = 0 ∧ ∀ j, applyWrites rf ws j < UINT32 by
    refine h rfInit rfl (fun j => ?_)
    unfold rfInit UINT32
    omega
  induction ws with
  | nil => intro rf h0 hb; exact ⟨h0, hb⟩
  | cons p ws ih =>
    intro rf h0 hb
    refine ih (rfWrite rf p.1 p.2) ?_ ?_
    · by_cases hz : p.1 = 0
      · simp [rfWrite, hz, h0]
      · simp only [rfWrite, if_neg hz]
        rw [if_neg (fun hh => hz hh.symm)]
        exact h0
    · intro j
      by_cases hz : p.1 = 0
      · simp only [rfWrite, if_pos hz]
        exact hb j
      · simp only [rfWrite, if_neg hz]
        by_cases hj : j = p.1
        · rw [if_pos hj]
          exact mask32_lt p.2
        · rw [if_neg hj]
          exact hb j

/-- Claim C10 (confirmed): a freshly constructed `MemoryMappedPeripheral`
(hence also `SimControl`) has the word at address 0 pre-allocated with
value 0, so any read of an address in `[0, 4)` with a legal width succeeds
and returns 0, while a read of any other word address inside the
peripheral's 8-word register space raises `UnallocatedAddress`. -/
theorem c10_word0_preallocated :
    (∀ addr n, addr < 4 → (n = 1 ∨ n = 2 ∨ n = 4) →
      (mmioFresh >>= fun m => mmioRead m addr n) = .ok 0) ∧
    (∀ addr n, 4 ≤ addr → addr < 32 →
      (mmioFresh >>= fun m => mmioRead m addr n) = .error .unallocated) := by
  constructor
  · intro addr n h hn
    interval_cases addr <;> rcases hn with rfl | rfl | rfl <;> decide
  · intro addr n h4 h32
    interval_cases addr <;> rfl

/-- Witness for `c10_word0_preallocated`: a byte read at address 2 returns
0 and a byte read at address 8 raises `UnallocatedAddress`. -/
theorem c10_word0_preallocated_witness :
    (mmioFresh >>= fun m => mmioRead m 2 1) = .ok 0 ∧
    (mmioFresh >>= fun m => mmioRead m 8 1) = .error .unallocated :=
  ⟨c10_word0_preallocated.1 2 1 (by decide) (Or.inl rfl),
   c10_word0_preallocated.2 8 1 (by decide) (by decide)⟩

end Pyrv
